import Mathlib

/-!
Verification of the DevSecOps AI assistant core (document processor and
RAG system) against its natural-language specification.

The Python sources are shallowly embedded: Python strings become `String`,
Python's `str.lower`, `in` (substring test), `str.strip`, slicing, `str.split`,
`str.title`, `str.replace` and `pathlib.Path(...).name` are modelled by
executable functions over `String`/`List Char`; ChromaDB, the external vector
store, is modelled by a list of stored chunks together with a per-query
distance assignment, its `query` operation returning the filtered,
distance-sorted first `n` records, as the spec's external-interface section
describes; distances are rationals. All definitions follow the source files
`src/document_processor.py` and `src/rag_system.py`.
-/

/-! ### Model of the Python string primitives -/

/-- ASCII lowercasing of one character, as Python's `str.lower` acts on ASCII. -/
def lowerChar (c : Char) : Char :=
  if 65 ≤ c.toNat ∧ c.toNat ≤ 90 then Char.ofNat (c.toNat + 32) else c

/-- Model of Python `str.lower` (the repository's filenames and queries are ASCII). -/
def pyLower (s : String) : String := ⟨s.data.map lowerChar⟩

/-- ASCII uppercasing of one character. -/
def upperChar (c : Char) : Char :=
  if 97 ≤ c.toNat ∧ c.toNat ≤ 122 then Char.ofNat (c.toNat - 32) else c

/-- Whether `c` is an ASCII letter. -/
def isAsciiAlpha (c : Char) : Bool :=
  (65 ≤ c.toNat && c.toNat ≤ 90) || (97 ≤ c.toNat && c.toNat ≤ 122)

/-- Whether the first list is a prefix of the second. -/
def charsPrefixOf : List Char → List Char → Bool
  | [], _ => true
  | _ :: _, [] => false
  | a :: as, b :: bs => a == b && charsPrefixOf as bs

/-- Whether `needle` occurs as a contiguous run inside the second list. -/
def charsSub (needle : List Char) : List Char → Bool
  | [] => charsPrefixOf needle []
  | c :: t => charsPrefixOf needle (c :: t) || charsSub needle t

/-- Model of the Python substring test `needle in hay`. -/
def pyIn (needle hay : String) : Bool := charsSub needle.data hay.data

/-- Model of Python `hay.startswith(pre)`. -/
def pyStartsWith (hay pre : String) : Bool := charsPrefixOf pre.data hay.data

/-- Whether `c` is one of the characters Python `str.strip` removes. -/
def isPySpace (c : Char) : Bool :=
  c == ' ' || c == '\t' || c == '\n' || c == '\r' || c == '\x0b' || c == '\x0c'

/-- Model of Python `str.strip` with no argument. -/
def pyStrip (s : String) : String :=
  ⟨((s.data.dropWhile isPySpace).reverse.dropWhile isPySpace).reverse⟩

/-- Model of the Python slice `s[:n]`. -/
def pyTake (s : String) (n : Nat) : String := ⟨s.data.take n⟩

/-- Model of Python `str.title` on one character: uppercase a letter that does
not follow a letter, lowercase a letter that does; the Bool records whether the
previous character was a letter. -/
def titleAux : Bool → List Char → List Char
  | _, [] => []
  | prevAlpha, c :: rest =>
      (if isAsciiAlpha c then (if prevAlpha then lowerChar c else upperChar c) else c)
        :: titleAux (isAsciiAlpha c) rest

/-- Model of Python `str.title` (ASCII inputs). -/
def pyTitle (s : String) : String := ⟨titleAux false s.data⟩

/-- Model of Python `s.replace(c, d)` for one-character patterns. -/
def pyReplaceChar (s : String) (c d : Char) : String :=
  ⟨s.data.map (fun x => if x == c then d else x)⟩

/-- Helper of `pathName`: keep the run of characters after the last slash. -/
def pathNameAux : List Char → List Char → List Char
  | acc, [] => acc
  | acc, c :: rest => if c == '/' then pathNameAux [] rest else pathNameAux (acc ++ [c]) rest

/-- Model of `pathlib.Path(s).name` for paths without a trailing slash: the
component after the last `/`. -/
def pathName (s : String) : String := ⟨pathNameAux [] s.data⟩

/-- Helper of `pySplit`: the Nat counts separator characters still to be
consumed after a match of the (non-empty) separator. -/
def splitSeqAux (sep : List Char) : Nat → List Char → List Char → List (List Char)
  | _ + 1, cur, [] => [cur]
  | 0, cur, [] => [cur]
  | skip + 1, cur, _ :: rest => splitSeqAux sep skip cur rest
  | 0, cur, c :: rest =>
      if charsPrefixOf sep (c :: rest) then
        cur :: splitSeqAux sep (sep.length - 1) [] rest
      else splitSeqAux sep 0 (cur.concat c) rest

/-- Model of Python `s.split(sep)` for a non-empty separator. -/
def pySplit (s : String) (sep : String) : List String :=
  (splitSeqAux sep.data 0 [] s.data).map (fun l => (⟨l⟩ : String))

/-- Lexicographic comparison of character lists by code point, as Python
compares strings. -/
def lexLe : List Char → List Char → Bool
  | [], _ => true
  | _ :: _, [] => false
  | a :: as, b :: bs => if a = b then lexLe as bs else decide (a.toNat < b.toNat)

/-- Model of Python string `<=`, the order used by `sorted`. -/
def pyStrLE (a b : String) : Prop := lexLe a.data b.data = true

instance : DecidableRel pyStrLE := fun a b => by unfold pyStrLE; infer_instance

/-! ### DocumentProcessor._categorize_document (src/document_processor.py) -/

def security_keywords : List String := ["security", "sec", "compliance", "audit"]

def cicd_keywords : List String := ["ci", "cd", "pipeline", "deploy", "jenkins", "github-actions"]

def infrastructure_keywords : List String := ["kubernetes", "k8s", "docker", "container"]

def ai_keywords : List String := ["ml", "ai", "model", "training", "mlops"]

def cloud_keywords : List String := ["aws", "cloud", "cert", "so3"]

def profile_keywords : List String := ["resume", "cv"]

def project_keywords : List String := ["project", "implementation"]

/-- Embedding of `DocumentProcessor._categorize_document`: the if/elif chain
over case-insensitive keyword substring tests against the filename. -/
def categorize_document (filename : String) : String :=
  let filename_lower := pyLower filename
  if security_keywords.any (fun kw => pyIn kw filename_lower) then "security"
  else if cicd_keywords.any (fun kw => pyIn kw filename_lower) then "cicd"
  else if infrastructure_keywords.any (fun kw => pyIn kw filename_lower) then "infrastructure"
  else if ai_keywords.any (fun kw => pyIn kw filename_lower) then "ai_engineering"
  else if cloud_keywords.any (fun kw => pyIn kw filename_lower) then "cloud_certification"
  else if profile_keywords.any (fun kw => pyIn kw filename_lower) then "professional_profile"
  else if project_keywords.any (fun kw => pyIn kw filename_lower) then "project_documentation"
  else "general"

/-- The spec's rule table: the category rules in their fixed order. -/
def category_rules : List (List String × String) :=
  [(security_keywords, "security"),
   (cicd_keywords, "cicd"),
   (infrastructure_keywords, "infrastructure"),
   (ai_keywords, "ai_engineering"),
   (cloud_keywords, "cloud_certification"),
   (profile_keywords, "professional_profile"),
   (project_keywords, "project_documentation")]

/-- First-match-wins evaluation of an ordered rule list against an already
lowercased filename, defaulting to `general`: the spec's description of
category assignment. -/
def firstMatch (fl : String) : List (List String × String) → String
  | [] => "general"
  | (kws, cat) :: rest => if kws.any (fun kw => pyIn kw fl) then cat else firstMatch fl rest

/-! ### The vector store model (ChromaDB collection, per the spec's external interface) -/

/-- The metadata a chunk carries into the store; the Normalizer always sets
`category` and `source` (further format-specific fields do not matter here). -/
structure ChunkMeta where
  category : String
  source : String
deriving DecidableEq

/-- One stored chunk of the collection: its text and its metadata. -/
structure StoredChunk where
  content : String
  metadata : ChunkMeta
deriving DecidableEq

/-- A retrieved result as `retrieve_context`/`search_by_category` build it:
content, metadata, and the derived relevance score. -/
structure RetrievedContext where
  content : String
  metadata : ChunkMeta
  relevance_score : ℚ
deriving DecidableEq

/-- Model of `collection.query`: the store ranks all records (optionally
pre-filtered on `metadata.category`) by ascending distance to the query and
returns the first `n` with their distances. The distance of each record to
the current query is given by `dist`. -/
def collection_query (store : List StoredChunk) (dist : StoredChunk → ℚ) (n : Nat)
    (filt : Option String) : List (StoredChunk × ℚ) :=
  let pool := match filt with
    | none => store
    | some cat => store.filter (fun c => c.metadata.category == cat)
  (List.insertionSort (fun a b : StoredChunk × ℚ => a.2 ≤ b.2)
    (pool.map (fun c => (c, dist c)))).take n

/-- The context record built from one store result: `relevance_score` is
`1 - distance`, exactly as both retrieval functions compute it. -/
def mk_context (r : StoredChunk × ℚ) : RetrievedContext :=
  ⟨r.1.content, r.1.metadata, 1 - r.2⟩

/-- Embedding of `DevSecOpsRAG.retrieve_context`: query the collection for
`n_results` records and convert each distance to a similarity; any exception
from the store query is caught and yields `[]`. `embed_dist` gives the store's
distance assignment for a query text and `store_fails` injects the store-query
failure the `except` branch catches. -/
def retrieve_context (store : List StoredChunk) (embed_dist : String → StoredChunk → ℚ)
    (query : String) (n_results : Nat) (store_fails : Bool) : List RetrievedContext :=
  match (if store_fails then Except.error "query failed"
         else Except.ok (collection_query store (embed_dist query) n_results none) :
         Except String (List (StoredChunk × ℚ))) with
  | Except.error _ => []
  | Except.ok results => results.map mk_context

/-- Embedding of `DevSecOpsRAG.search_by_category`: request `n_results * 2`
records pre-filtered to the category, then keep the first
`min n_results (number returned)`; exceptions degrade to `[]`. -/
def search_by_category (store : List StoredChunk) (embed_dist : String → StoredChunk → ℚ)
    (query : String) (category : String) (n_results : Nat) (store_fails : Bool) :
    List RetrievedContext :=
  match (if store_fails then Except.error "query failed"
         else Except.ok (collection_query store (embed_dist query) (n_results * 2) (some category)) :
         Except String (List (StoredChunk × ℚ))) with
  | Except.error _ => []
  | Except.ok results => (results.take n_results).map mk_context

/-! ### DocumentProcessor.ingest_documents -/

/-- The identifiers one ingestion call assigns to its chunks:
`doc_0 … doc_(n-1)`, from `ids = [f"doc_{i}" for i in range(len(chunks))]`. -/
def assigned_ids (numChunks : Nat) : List String :=
  (List.range numChunks).map (fun i => "doc_" ++ toString i)

/-- The persistent collection as `collection.add` extends it: identifier/chunk
pairs in insertion order. -/
structure StoreState where
  entries : List (String × StoredChunk)
deriving DecidableEq

/-- Embedding of `DocumentProcessor.ingest_documents` at chunk granularity: an
empty input returns unchanged, otherwise the chunks are added under the
identifiers `assigned_ids` computes for this call alone (the counter restarts
from 0 on every call). -/
def ingest_documents (st : StoreState) (chunks : List StoredChunk) : StoreState :=
  if chunks.isEmpty then st
  else ⟨st.entries ++ (assigned_ids chunks.length).zip chunks⟩

/-! ### DevSecOpsRAG.get_knowledge_base_info -/

/-- Model of `collection.get(limit=100)`: the first `limit` stored records. -/
def collection_get (store : List StoredChunk) (limit : Nat) : List StoredChunk :=
  store.take limit

/-- Embedding of `DevSecOpsRAG.get_knowledge_base_info`, as the pair
(total_documents, categories): the count is `collection.count()` over the whole
store, the categories are `sorted(list(set(...)))` over the metadata of the
first 100 records only. -/
def get_knowledge_base_info (store : List StoredChunk) : Nat × List String :=
  (store.length,
   List.insertionSort pyStrLE
     (((collection_get store 100).map (fun c => c.metadata.category)).dedup))

/-! ### The Responder (DevSecOpsRAG.prepare_context_string / generate_response) -/

/-- The canned sentence `prepare_context_string` returns for an empty context
list. -/
def no_context_string : String := "No relevant context found in Moses's knowledge base."

/-- One entry of the context block: the labeled header, then the chunk text.
The source writes the literal two-character sequence backslash-n (not a real
newline) between parts, so the embedding does the same. -/
def context_entry (i : Nat) (ctx : RetrievedContext) : String :=
  "[Source " ++ toString i ++ " - "
    ++ pyTitle (pyReplaceChar ctx.metadata.category '_' ' ') ++ "] ("
    ++ pathName ctx.metadata.source ++ "):\\n"
    ++ ctx.content ++ "\\n\\n"

/-- The entries of the context block, numbered from `i` (Python's
`enumerate(contexts, 1)` starts at 1). -/
def context_entries : Nat → List RetrievedContext → String
  | _, [] => ""
  | i, c :: rest => context_entry i c ++ context_entries (i + 1) rest

/-- Embedding of `DevSecOpsRAG.prepare_context_string`. -/
def prepare_context_string (contexts : List RetrievedContext) : String :=
  if contexts.isEmpty then no_context_string
  else "RELEVANT KNOWLEDGE FROM MOSES'S EXPERTISE:\\n\\n" ++ context_entries 1 contexts

/-- The keyword list of `_extract_key_points`. -/
def key_point_keywords : List String :=
  ["security", "implement", "deploy", "configure", "best practice"]

/-- The line filter of `_extract_key_points`: nonblank, not the block header,
not a source label, and containing one of the keywords (case-insensitively). -/
def key_point_line (line : String) : Bool :=
  !(pyStrip line).isEmpty && !pyStartsWith line "RELEVANT KNOWLEDGE"
    && !pyStartsWith line "[Source"
    && key_point_keywords.any (fun kw => pyIn kw (pyLower line))

/-- The collection loop of `_extract_key_points`: keep matching lines as
bullets truncated to 200 characters, stopping after `budget` (3) matches. -/
def collect_key_points : List String → Nat → List String
  | [], _ => []
  | line :: rest, budget =>
      if budget = 0 then []
      else if key_point_line line then
        ("• " ++ pyTake (pyStrip line) 200) :: collect_key_points rest (budget - 1)
      else collect_key_points rest budget

/-- Embedding of `DevSecOpsRAG._extract_key_points`. The context is split on
the literal two-character backslash-n sequence, matching how
`prepare_context_string` assembles it. -/
def extract_key_points (context : String) : String :=
  let pts := collect_key_points (pySplit context "\\n") 3
  if pts.isEmpty then "• Relevant technical documentation and implementation guides available"
  else String.intercalate "\n" pts

/-- The CI/CD branch's canned recommendation bullets. -/
def cicd_recommendations : String :=
  "• Integrate SAST/DAST tools in pipeline\n• Use secure secrets management\n• Implement branch protection rules\n• Automated security testing at each stage"

/-- The Kubernetes branch's canned recommendation bullets. -/
def kubernetes_recommendations : String :=
  "• Implement RBAC and network policies\n• Use Pod Security Standards\n• Regular security scanning of container images\n• Monitor cluster activity with audit logging"

/-- The AWS/cloud branch's canned recommendation bullets. -/
def aws_recommendations : String :=
  "• Follow AWS Well-Architected Security Pillar\n• Implement least privilege IAM policies\n• Enable CloudTrail and GuardDuty\n• Use AWS Config for compliance monitoring"

/-- The AI/ML branch's canned recommendation bullets. -/
def ai_recommendations : String :=
  "• Implement MLSecOps practices\n• Secure model training pipelines\n• Monitor for model drift and bias\n• Protect sensitive training data"

/-- The fallback canned recommendation bullets. -/
def generic_recommendations : String :=
  "• Follow security-first development practices\n• Implement proper monitoring and logging\n• Regular security assessments and updates\n• Documentation and knowledge sharing"

/-- Embedding of `DevSecOpsRAG._generate_recommendations`: an ordered if/elif
decision tree over keywords of the lowercased question; the retrieved context
argument is accepted but never consulted. -/
def generate_recommendations (query : String) (context : String) : String :=
  let query_lower := pyLower query
  if pyIn "kubernetes" query_lower || pyIn "k8s" query_lower then kubernetes_recommendations
  else if pyIn "ci/cd" query_lower || pyIn "pipeline" query_lower then cicd_recommendations
  else if pyIn "aws" query_lower || pyIn "cloud" query_lower then aws_recommendations
  else if pyIn "ai" query_lower || pyIn "ml" query_lower || pyIn "model" query_lower then
    ai_recommendations
  else generic_recommendations

/-- The keyword list of `_extract_security_points`. -/
def security_point_keywords : List String :=
  ["security", "secure", "vulnerability", "threat", "risk", "compliance", "audit"]

/-- The collection loop of `_extract_security_points`: lines containing a
security keyword whose stripped form is nonblank and not a source label,
as bullets truncated to 150 characters, at most `budget` (2). -/
def collect_security_points : List String → Nat → List String
  | [], _ => []
  | line :: rest, budget =>
      if budget = 0 then []
      else if security_point_keywords.any (fun kw => pyIn kw (pyLower line))
          && !(pyStrip line).isEmpty && !pyStartsWith (pyStrip line) "[Source" then
        ("• " ++ pyTake (pyStrip line) 150) :: collect_security_points rest (budget - 1)
      else collect_security_points rest budget

/-- Embedding of `DevSecOpsRAG._extract_security_points`. -/
def extract_security_points (context : String) : String :=
  let pts := collect_security_points (pySplit context "\\n") 2
  if pts.isEmpty then
    "• Always prioritize security in implementation\n• Regular security reviews and updates recommended"
  else String.intercalate "\n" pts

/-- The canned no-information answer of `generate_response`. -/
def no_info_response : String :=
  "I don't have specific information about that topic in Moses Omondi's knowledge base. Please try a more specific question about DevSecOps, CI/CD security, AWS, Kubernetes, or AI/ML engineering."

/-- The structured three-section answer template of `generate_response`
(the source builds it with an f-string and then strips it). -/
def structured_response (query context : String) : String :=
  pyStrip ("Based on Moses Omondi's expertise, here's what I can tell you about your question: \"" ++ query ++ "\"\n\n**Key Information:**\n" ++ extract_key_points context ++ "\n\n**Practical Recommendations:**\n" ++ generate_recommendations query context ++ "\n\n**Security Considerations:**\n" ++ extract_security_points context ++ "\n\n*This response is based on Moses Omondi's documented experience in DevSecOps, AI Engineering, and Cloud Architecture.*\n")

/-- Embedding of `DevSecOpsRAG.generate_response`: the fallback branch fires on
a substring test against the assembled context string, otherwise the structured
answer is returned. -/
def generate_response (query : String) (context : String) : String :=
  if pyIn "No relevant context" context then no_info_response
  else structured_response query context

/-! ### The text splitter (DocumentProcessor.__init__, RecursiveCharacterTextSplitter) -/

/-- The splitter configuration of `RecursiveCharacterTextSplitter(...)`. -/
structure SplitterConfig where
  chunk_size : Nat
  chunk_overlap : Nat
  separators : List String
deriving DecidableEq

/-- Embedding of the `text_splitter` construction in `DocumentProcessor.__init__`.
The separator strings are exactly the source's literals: the Python file writes
`"\\n\\n"` and `"\\n"`, i.e. the literal backslash-n character sequences, not
real newlines. -/
def text_splitter : SplitterConfig :=
  { chunk_size := 1000, chunk_overlap := 200, separators := ["\\n\\n", "\\n", " ", ""] }

/-- Splitting one text on one separator, where the empty separator means the
character boundary (each character becomes its own unit). -/
def split_on_separator (sep : String) (text : String) : List String :=
  if sep.isEmpty then text.data.map (fun c => (⟨[c]⟩ : String))
  else pySplit text sep

/-- Modelled from the spec: the recursive splitting strategy of langchain's
`RecursiveCharacterTextSplitter` (external library code, not in `src/`) -
try each separator in order, and fall back to the next separator only for a
unit that still exceeds the target size after applying the current one. The
merge-with-overlap recombination of small units is abstracted away; this
captures the separator-priority discipline the claim describes. -/
def recursive_split (chunk_size : Nat) : List String → String → List String
  | [], text => [text]
  | sep :: rest, text =>
      if text.data.length ≤ chunk_size then [text]
      else (split_on_separator sep text).flatMap (fun piece =>
        if piece.data.length ≤ chunk_size then [piece]
        else recursive_split chunk_size rest piece)

/-! ### Order lemmas for the Python string order -/

theorem char_eq_of_toNat_eq {a b : Char} (h : a.toNat = b.toNat) : a = b :=
  Char.ext (UInt32.ext h)

theorem lexLe_total : ∀ a b : List Char, lexLe a b = true ∨ lexLe b a = true := by
  intro a
  induction a with
  | nil => intro b; left; rfl
  | cons x xs ih =>
    intro b
    cases b with
    | nil => right; rfl
    | cons y ys =>
      by_cases hxy : x = y
      · subst hxy
        simpa [lexLe] using ih ys
      · have hyx : y ≠ x := fun h => hxy h.symm
        have hn : x.toNat ≠ y.toNat := fun h => hxy (char_eq_of_toNat_eq h)
        rcases Nat.lt_or_ge x.toNat y.toNat with h | h
        · left; simp [lexLe, hxy, h]
        · right
          have : y.toNat < x.toNat := lt_of_le_of_ne h (fun hh => hn hh.symm)
          simp [lexLe, hyx, this]

theorem lexLe_trans : ∀ a b c : List Char,
    lexLe a b = true → lexLe b c = true → lexLe a c = true := by
  intro a
  induction a with
  | nil => intro b c _ _; rfl
  | cons x xs ih =>
    intro b c hab hbc
    cases b with
    | nil => simp [lexLe] at hab
    | cons y ys =>
      cases c with
      | nil => simp [lexLe] at hbc
      | cons z zs =>
        by_cases hxy : x = y <;> by_cases hyz : y = z
        · subst hxy; subst hyz
          simp only [lexLe, if_pos rfl] at hab hbc ⊢
          exact ih ys zs hab hbc
        · subst hxy
          simp only [lexLe, if_pos rfl] at hab
          simp only [lexLe, if_neg hyz] at hbc
          have hxz : x ≠ z := hyz
          simp [lexLe, hxz, hbc]
        · subst hyz
          simp only [lexLe, if_neg hxy] at hab
          simp [lexLe, hxy, hab]
        · simp only [lexLe, if_neg hxy] at hab
          simp only [lexLe, if_neg hyz] at hbc
          have h1 : x.toNat < y.toNat := of_decide_eq_true hab
          have h2 : y.toNat < z.toNat := of_decide_eq_true hbc
          have h3 : x.toNat < z.toNat := Nat.lt_trans h1 h2
          have hxz : x ≠ z := fun h => by subst h; exact Nat.lt_irrefl _ h3
          simp [lexLe, hxz, h3]

instance : IsTotal String pyStrLE := ⟨fun a b => lexLe_total a.data b.data⟩

instance : IsTrans String pyStrLE := ⟨fun a b c => lexLe_trans a.data b.data c.data⟩

/-! ### Claim theorems -/

/-- C1: category assignment is deterministic (a pure function of the filename),
case-insensitive (filenames with equal lowercasings receive the same category),
equal to first-match-wins evaluation of the ordered rule table
security → cicd → infrastructure → ai_engineering → cloud_certification →
professional_profile → project_documentation, and `general` when no keyword of
any rule occurs in the lowercased filename. -/
theorem categorize_document_ordered_first_match (s : String) :
    categorize_document s = firstMatch (pyLower s) category_rules ∧
    (∀ t, pyLower s = pyLower t → categorize_document s = categorize_document t) ∧
    ((∀ r ∈ category_rules, ∀ kw ∈ r.1, pyIn kw (pyLower s) = false) →
      categorize_document s = "general") := by
  refine ⟨rfl, ?_, ?_⟩
  · intro t h
    unfold categorize_document
    rw [h]
  · intro h
    have H : ∀ kws cat, (kws, cat) ∈ category_rules →
        (kws.any fun kw => pyIn kw (pyLower s)) = false := by
      intro kws cat hmem
      apply List.any_eq_false.mpr
      intro kw hkw
      simp [h _ hmem kw hkw]
    have h1 := H security_keywords "security" (by simp [category_rules])
    have h2 := H cicd_keywords "cicd" (by simp [category_rules])
    have h3 := H infrastructure_keywords "infrastructure" (by simp [category_rules])
    have h4 := H ai_keywords "ai_engineering" (by simp [category_rules])
    have h5 := H cloud_keywords "cloud_certification" (by simp [category_rules])
    have h6 := H profile_keywords "professional_profile" (by simp [category_rules])
    have h7 := H project_keywords "project_documentation" (by simp [category_rules])
    simp [categorize_document, h1, h2, h3, h4, h5, h6, h7]

/-- Witness for the categorization theorem at concrete filenames: the rule-table
equation at a filename matching two rules (cicd wins over infrastructure),
case-insensitivity at a mixed-case pair, and the `general` default at a
filename containing no keyword. -/
theorem categorize_document_ordered_first_match_witness :
    categorize_document "Docker-CI.yml" = firstMatch (pyLower "Docker-CI.yml") category_rules ∧
    categorize_document "SECURITY.md" = categorize_document "security.MD" ∧
    categorize_document "notes.bin" = "general" :=
  ⟨(categorize_document_ordered_first_match "Docker-CI.yml").1,
   (categorize_document_ordered_first_match "SECURITY.md").2.1 "security.MD" (by decide),
   (categorize_document_ordered_first_match "notes.bin").2.2 (by decide)⟩

/-- C5 counterexample: the question "Deploy a Kubernetes pipeline" contains
"pipeline" in its lowercased text, yet the recommendations section is the
Kubernetes branch's canned bullets, not the CI/CD branch's: the kubernetes/k8s
branch is tested first and wins. -/
theorem pipeline_question_kubernetes_cex :
    pyIn "pipeline" (pyLower "Deploy a Kubernetes pipeline") = true ∧
    generate_recommendations "Deploy a Kubernetes pipeline" "any retrieved context"
      = kubernetes_recommendations ∧
    kubernetes_recommendations ≠ cicd_recommendations :=
  ⟨by decide, by decide, by decide⟩

/-- C5 amended: for every question whose lowercased text contains "pipeline"
and contains neither "kubernetes" nor "k8s", the recommendations section is the
CI/CD branch's canned bullet list, regardless of the retrieved context. -/
theorem pipeline_question_cicd_recommendations (q ctx : String)
    (hp : pyIn "pipeline" (pyLower q) = true)
    (hk : pyIn "kubernetes" (pyLower q) = false)
    (h8 : pyIn "k8s" (pyLower q) = false) :
    generate_recommendations q ctx = cicd_recommendations := by
  simp [generate_recommendations, hp, hk, h8]

/-- Witness for the amended C5 theorem at a concrete pipeline question. -/
theorem pipeline_question_cicd_recommendations_witness :
    generate_recommendations "How do I secure my deployment pipeline?" "ctx"
      = cicd_recommendations :=
  pipeline_question_cicd_recommendations "How do I secure my deployment pipeline?" "ctx"
    (by decide) (by decide) (by decide)

/-- C7: for every question, an empty retrieved-context list makes the Responder
return the single canned no-information sentence: `prepare_context_string`
yields the no-context marker and `generate_response`'s fallback branch fires,
so the structured three-section answer is never built. -/
theorem empty_contexts_no_info_answer (q : String) :
    prepare_context_string [] = no_context_string ∧
    generate_response q (prepare_context_string []) = no_info_response :=
  ⟨rfl, rfl⟩

/-- A retrieved chunk whose content happens to contain the fallback marker
text "No relevant context". -/
def poisoned_context : RetrievedContext :=
  ⟨"Beware: No relevant context markers appear in this chunk.", ⟨"general", "notes.md"⟩, 1/2⟩

/-- C9: a non-empty context list whose chunk content contains the literal text
"No relevant context" makes `generate_response` return the canned
no-information answer: the fallback is a substring test on the assembled
context string, not an emptiness test on the context list. -/
theorem no_info_branch_on_poisoned_content :
    ([poisoned_context] : List RetrievedContext) ≠ [] ∧
    pyIn "No relevant context" poisoned_context.content = true ∧
    generate_response "What is DevSecOps?" (prepare_context_string [poisoned_context])
      = no_info_response :=
  ⟨by decide, by decide, rfl⟩

/-- A first example chunk for the store model. -/
def chunkA : StoredChunk := ⟨"Kubernetes RBAC requires least privilege.", ⟨"security", "k8s.md"⟩⟩

/-- A second example chunk for the store model. -/
def chunkB : StoredChunk := ⟨"Pipelines need SAST scanning.", ⟨"cicd", "ci.md"⟩⟩

/-- C8 counterexample: two successive one-chunk ingestion calls into the same
store instance both assign the identifier doc_0, so the stored identifier list
is not duplicate-free: identifiers are reused across ingestion calls. -/
theorem ingest_id_reuse_cex :
    ((ingest_documents (ingest_documents ⟨[]⟩ [chunkA]) [chunkB]).entries.map Prod.fst)
      = ["doc_0", "doc_0"] ∧
    ¬ ((ingest_documents (ingest_documents ⟨[]⟩ [chunkA]) [chunkB]).entries.map
        Prod.fst).Nodup :=
  ⟨by decide, by decide⟩

/-- C8 amended: every ingestion call computes its identifiers doc_0..doc_(n-1)
from that call's chunk count alone and appends them to the store, so any two
ingestion calls with at least one chunk both assign doc_0: identifiers are
reused across ingestion calls into the same store instance (they are unique
only within a single call). -/
theorem ingest_ids_restart (st : StoreState) (chunks : List StoredChunk)
    (n₁ n₂ : Nat) (hne : chunks ≠ []) (h₁ : 0 < n₁) (h₂ : 0 < n₂) :
    (ingest_documents st chunks).entries.map Prod.fst
      = st.entries.map Prod.fst ++ assigned_ids chunks.length ∧
    "doc_0" ∈ assigned_ids n₁ ∧ "doc_0" ∈ assigned_ids n₂ := by
  refine ⟨?_, ?_, ?_⟩
  · have hne' : chunks.isEmpty = false := by
      cases chunks with
      | nil => exact absurd rfl hne
      | cons c cs => rfl
    have hlen : (assigned_ids chunks.length).length ≤ chunks.length := by
      simp [assigned_ids]
    simp [ingest_documents, hne', List.map_fst_zip _ _ hlen]
  · simp only [assigned_ids, List.mem_map, List.mem_range]
    exact ⟨0, h₁, by decide⟩
  · simp only [assigned_ids, List.mem_map, List.mem_range]
    exact ⟨0, h₂, by decide⟩

/-- Witness for the amended C8 theorem: one concrete ingestion call and the
shared doc_0 of two call sizes. -/
theorem ingest_ids_restart_witness :
    (ingest_documents ⟨[]⟩ [chunkA]).entries.map Prod.fst
      = (⟨[]⟩ : StoreState).entries.map Prod.fst ++ assigned_ids [chunkA].length ∧
    "doc_0" ∈ assigned_ids 1 ∧ "doc_0" ∈ assigned_ids 2 :=
  ingest_ids_restart ⟨[]⟩ [chunkA] 1 2 (by decide) (by decide) (by decide)

/-- A distance assignment reporting distance 3/2 (greater than 1) for every
chunk and query. -/
def big_distance : String → StoredChunk → ℚ := fun _ _ => 3/2

/-- C2: every retrieved result's relevance_score equals exactly 1 minus the
distance the store reports at the same position, with no clamping: a store
whose reported distance is 3/2 > 1 yields the score 1 - 3/2, which is
negative, outside [0,1]. -/
theorem relevance_score_one_minus_distance :
    (∀ store dist q n i c r,
      (retrieve_context store dist q n false).get? i = some c →
      (collection_query store (dist q) n none).get? i = some r →
      c.relevance_score = 1 - r.2) ∧
    (3/2 : ℚ) > 1 ∧
    (retrieve_context [chunkA] big_distance "any query" 5 false).map
      (fun c => c.relevance_score) = [1 - (3/2 : ℚ)] ∧
    1 - (3/2 : ℚ) < 0 := by
  refine ⟨?_, by norm_num, rfl, by norm_num⟩
  intro store dist q n i c r hc hr
  have hc' : ((collection_query store (dist q) n none).map mk_context).get? i = some c := hc
  rw [List.get?_map, hr] at hc'
  cases hc'
  rfl

/-- Witness for the C2 theorem: the positional score equation applied to a
one-chunk store at index 0. -/
theorem relevance_score_one_minus_distance_witness :
    (mk_context (chunkA, big_distance "q" chunkA)).relevance_score
      = 1 - (chunkA, big_distance "q" chunkA).2 :=
  relevance_score_one_minus_distance.1 [chunkA] big_distance "q" 5 0
    (mk_context (chunkA, big_distance "q" chunkA)) (chunkA, big_distance "q" chunkA) rfl rfl

/-- C3: category-filtered retrieval asks the store for n_results * 2 records
pre-filtered to the category, truncates the answer to at most n_results, and
every returned result's metadata category equals the filter, whatever
distances the store assigns to chunks of other categories. -/
theorem search_by_category_filtered (store : List StoredChunk)
    (dist : String → StoredChunk → ℚ) (q cat : String) (k : Nat) :
    search_by_category store dist q cat k false
      = ((collection_query store (dist q) (k * 2) (some cat)).take k).map mk_context ∧
    (search_by_category store dist q cat k false).length ≤ k ∧
    ∀ c ∈ search_by_category store dist q cat k false, c.metadata.category = cat := by
  refine ⟨rfl, ?_, ?_⟩
  · show (((collection_query store (dist q) (k * 2) (some cat)).take k).map mk_context).length ≤ k
    rw [List.length_map, List.length_take]
    exact min_le_left _ _
  · intro c hc
    have hc' : c ∈ ((collection_query store (dist q) (k * 2) (some cat)).take k).map mk_context :=
      hc
    obtain ⟨r, hr, rfl⟩ := List.mem_map.mp hc'
    have hrQ : r ∈ collection_query store (dist q) (k * 2) (some cat) :=
      List.take_subset _ _ hr
    have hr2 : r ∈ List.insertionSort (fun a b : StoredChunk × ℚ => a.2 ≤ b.2)
        ((store.filter (fun c => c.metadata.category == cat)).map (fun c => (c, dist q c))) :=
      List.take_subset _ _ hrQ
    have hr3 : r ∈ (store.filter (fun c => c.metadata.category == cat)).map
        (fun c => (c, dist q c)) :=
      (List.perm_insertionSort _ _).mem_iff.mp hr2
    obtain ⟨sc, hsc, rfl⟩ := List.mem_map.mp hr3
    have hbeq : sc.metadata.category == cat := (List.mem_filter.mp hsc).2
    simpa [mk_context] using eq_of_beq hbeq

/-- A distance assignment under which the cicd chunk is strictly more relevant
(distance 0) than the security chunk (distance 1/2). -/
def category_biased_distance : String → StoredChunk → ℚ :=
  fun _ c => if c.metadata.category == "security" then 1/2 else 0

/-- Witness for the C3 theorem: searching the two-chunk store in category
security returns the security chunk although the cicd chunk is nearer. -/
theorem search_by_category_filtered_witness :
    (mk_context (chunkA, category_biased_distance "q" chunkA)).metadata.category = "security" :=
  (search_by_category_filtered [chunkB, chunkA] category_biased_distance "q" "security" 3).2.2
    (mk_context (chunkA, category_biased_distance "q" chunkA))
    (List.mem_singleton.mpr rfl)

/-- A distance assignment reporting distance 0 everywhere. -/
def zero_distance : String → StoredChunk → ℚ := fun _ _ => 0

/-- C6 counterexample: a query with the empty string against a non-empty store
returns the store's nearest records, not an empty list - the code does not
special-case the empty query text. -/
theorem retrieve_empty_query_nonempty_cex :
    retrieve_context [chunkA] zero_distance "" 5 false
      = [mk_context (chunkA, zero_distance "" chunkA)] ∧
    retrieve_context [chunkA] zero_distance "" 5 false ≠ [] :=
  ⟨rfl, fun h => List.cons_ne_nil _ _ h⟩

/-- C6 amended: retrieval is total and never propagates a store failure: an
empty store yields [], an injected store-query failure yields [], and whenever
the store query returns no records the result is []; the empty-string query is
not special-cased - against an empty store it returns [] like any other query,
but against a non-empty store it returns the nearest records (see the
counterexample). -/
theorem retrieve_context_total_degrades (store : List StoredChunk)
    (dist : String → StoredChunk → ℚ) (q : String) (n : Nat) :
    retrieve_context [] dist q n false = [] ∧
    retrieve_context store dist q n true = [] ∧
    (collection_query store (dist q) n none = [] →
      retrieve_context store (dist) q n false = []) := by
  have hmap : ∀ res : List (StoredChunk × ℚ), res = [] → res.map mk_context = [] := by
    intro res h
    rw [h]
    rfl
  have h0 : collection_query [] (dist q) n none = [] := by
    simp [collection_query]
  exact ⟨hmap _ h0, rfl, fun h => hmap _ h⟩

/-- Witness for the amended C6 theorem: zero requested results give zero
records, hence an empty retrieval. -/
theorem retrieve_context_total_degrades_witness :
    retrieve_context [chunkA] zero_distance "kubernetes" 0 false = [] :=
  (retrieve_context_total_degrades [chunkA] zero_distance "kubernetes" 0).2.2 rfl

/-- C10: get_knowledge_base_info counts every stored chunk but derives its
category list from the first 100 records only: a category present only beyond
the first 100 records is absent from the returned list, which is
duplicate-free and sorted ascending in the Python string order. -/
theorem get_knowledge_base_info_sample_bound (store : List StoredChunk) (cat : String)
    (habsent : ∀ c ∈ collection_get store 100, c.metadata.category ≠ cat)
    (hoccurs : ∃ c ∈ store.drop 100, c.metadata.category = cat) :
    (get_knowledge_base_info store).1 = store.length ∧
    cat ∉ (get_knowledge_base_info store).2 ∧
    (get_knowledge_base_info store).2.Nodup ∧
    List.Sorted pyStrLE (get_knowledge_base_info store).2 := by
  refine ⟨rfl, ?_, ?_, ?_⟩
  · intro hmem
    have h1 : cat ∈ ((collection_get store 100).map (fun c => c.metadata.category)).dedup :=
      (List.perm_insertionSort pyStrLE _).mem_iff.mp hmem
    have h2 : cat ∈ (collection_get store 100).map (fun c => c.metadata.category) :=
      List.mem_dedup.mp h1
    obtain ⟨c, hcmem, hcat⟩ := List.mem_map.mp h2
    exact habsent c hcmem hcat
  · exact ((List.perm_insertionSort pyStrLE _).nodup_iff).mpr
      (List.nodup_dedup ((collection_get store 100).map (fun c => c.metadata.category)))
  · exact List.sorted_insertionSort pyStrLE _

/-- A chunk whose category appears nowhere in the first hundred records of
`big_store`. -/
def mlChunk : StoredChunk := ⟨"Model training notes.", ⟨"ai_engineering", "ml.md"⟩⟩

/-- A store of 101 chunks whose 101st record is the only ai_engineering one. -/
def big_store : List StoredChunk := List.replicate 100 chunkA ++ [mlChunk]

/-- Witness for the C10 theorem: the 101-chunk store counts 101 documents but
its category list misses ai_engineering, the category of record 101. -/
theorem get_knowledge_base_info_sample_bound_witness :
    (get_knowledge_base_info big_store).1 = big_store.length ∧
    "ai_engineering" ∉ (get_knowledge_base_info big_store).2 :=
  ⟨(get_knowledge_base_info_sample_bound big_store "ai_engineering"
      (by decide) (by decide)).1,
   (get_knowledge_base_info_sample_bound big_store "ai_engineering"
      (by decide) (by decide)).2.1⟩

/-- A document with real line breaks, as markdown and plain-text files contain. -/
def real_newline_doc : String := "Paragraph one.\n\nParagraph two."

/-- C4: the configured chunk size and overlap are 1000 and 200 as claimed, but
the configured separators are the literal backslash-n character sequences, not
the real paragraph-break/line-break characters: on a document with real line
breaks neither of the first two separators occurs while real breaks do, so an
oversized document falls through to the space separator and is split into
units that straddle the paragraph boundary, where the intended separator list
splits it at the paragraph break. -/
theorem text_splitter_separator_bug :
    text_splitter.chunk_size = 1000 ∧
    text_splitter.chunk_overlap = 200 ∧
    text_splitter.separators = ["\\n\\n", "\\n", " ", ""] ∧
    ("\\n\\n" : String) ≠ "\n\n" ∧
    pyIn "\n\n" real_newline_doc = true ∧
    pyIn "\\n\\n" real_newline_doc = false ∧
    pyIn "\\n" real_newline_doc = false ∧
    recursive_split 16 text_splitter.separators real_newline_doc
      = ["Paragraph", "one.\n\nParagraph", "two."] ∧
    recursive_split 16 ["\n\n", "\n", " ", ""] real_newline_doc
      = ["Paragraph one.", "Paragraph two."] := by
  refine ⟨rfl, rfl, rfl, by decide, by decide, by decide, by decide, by decide, by decide⟩
